import Mathlib

/-
Verification of the news-classification adapter and its caller-side
fallback policy, shallowly embedded from the repository sources:
  app/services/model_service.py   (ModelService.predict)
  app/services/bert_classifier.py (BertNewsClassifier.classify_text)
  app/routers/news.py             (classify_text, create_news, update_news)
  app/core/config.py              (Settings.NEWS_CATEGORIES)
Scores are modelled as rationals; Python exceptions as an inductive type;
the external model/tokenizer transport as an explicit outcome value.
-/

set_option autoImplicit false

namespace FYP

/-- Fixed category list from app/core/config.py, Settings.NEWS_CATEGORIES. -/
def NEWS_CATEGORIES : List String :=
  ["Academics", "Events", "Sports", "Technology and Innovation",
   "Chaplaincy", "Opportunities"]

/-- Python exceptions that can cross the adapter boundary.
valueError and runtimeError are raised by ModelService.predict itself;
connectionError and other stand for transport/model exceptions raised
inside the try block (the code re-raises these verbatim);
httpException models fastapi.HTTPException raised inside a handler body. -/
inductive PyExc where
  | valueError (msg : String)
  | runtimeError (msg : String)
  | connectionError (msg : String)
  | httpException (status : Nat) (detail : String)
  | other (name : String) (msg : String)
deriving Repr, DecidableEq

/-- HTTP error response produced by a FastAPI handler (HTTPException). -/
structure HTTPError where
  status : Nat
  detail : String
deriving Repr, DecidableEq

/-- Return value of ModelService.predict: the dict with keys category,
confidence and all_probabilities (the latter as an association list in
label-encoder order, modelling the Python dict built by zip). -/
structure PredictResult where
  category : String
  confidence : ℚ
  all_probabilities : List (String × ℚ)
deriving Repr, DecidableEq

/-- State of the ModelService singleton that predict reads:
classes is label_encoder.classes_, and loaded is true when model,
tokenizer and label encoder are all non-None. -/
structure ModelState where
  classes : List String
  loaded : Bool
deriving Repr, DecidableEq

/-- Outcome of invoking the tokenizer+model+softmax pipeline inside the
try block of predict: either the softmax probability vector predictions[0]
(one score per label, aligned with classes), or a raised exception. -/
inductive TransportOutcome where
  | ok (probs : List ℚ)
  | exc (e : PyExc)
deriving Repr, DecidableEq

/-- Index returned by torch.argmax over a score vector: the index of the
first occurrence of the maximum value (per the torch documentation).
On an empty vector the code would fault; we return 0 and the theorems
carry a nonemptiness hypothesis. -/
def argmaxIdx : List ℚ → Nat
  | [] => 0
  | [_] => 0
  | x :: y :: rest =>
      if (y :: rest).getD (argmaxIdx (y :: rest)) 0 > x then
        argmaxIdx (y :: rest) + 1
      else 0

/-- Embedding of ModelService.predict (model_service.py lines 81-128).
The first component is the returned dict or the raised exception; the
second counts how many times the tokenizer/model transport was invoked.
Control flow copied from the source: empty text raises ValueError before
anything else; missing components raise RuntimeError; inside the try
block any exception from the transport is logged and re-raised unchanged;
otherwise predicted_class = argmax, confidence = predictions[0][argmax],
category = label_encoder.inverse_transform([predicted_class])[0], and
all_probabilities = dict(zip(classes, predictions[0])). -/
def predict (st : ModelState) (transport : TransportOutcome) (text : String) :
    Except PyExc PredictResult × Nat :=
  if text = "" then
    (Except.error (PyExc.valueError "Input text cannot be empty"), 0)
  else if st.loaded = false then
    (Except.error (PyExc.runtimeError "Model components not properly initialized"), 0)
  else
    match transport with
    | TransportOutcome.exc e => (Except.error e, 1)
    | TransportOutcome.ok probs =>
        let k := argmaxIdx probs
        (Except.ok
          { category := st.classes.getD k ""
            confidence := probs.getD k 0
            all_probabilities := st.classes.zip probs }, 1)

/-- Embedding of the /news/classify handler (news.py lines 22-37):
ValueError maps to 400 with the exception text, RuntimeError to 503,
and every other exception to 500 "Classification failed". -/
def classify_text (st : ModelState) (transport : TransportOutcome) (text : String) :
    Except HTTPError PredictResult :=
  match (predict st transport text).1 with
  | Except.ok r => Except.ok r
  | Except.error (PyExc.valueError m) => Except.error ⟨400, m⟩
  | Except.error (PyExc.runtimeError _) =>
      Except.error ⟨503, "Model service is not available"⟩
  | Except.error _ => Except.error ⟨500, "Classification failed"⟩

/-- Payload of a creation request (app/models/news.py, NewsCreate):
title and content are required; category, source and image_url are
optional; tags defaults to the empty list. -/
structure NewsCreate where
  title : String
  content : String
  category : Option String
  source : Option String
  tags : List String
  image_url : Option String
deriving Repr, DecidableEq

/-- Document inserted into the news collection by create_news
(news.py lines 56-66): news.model_dump() updated with created_by,
category, confidence_score, is_active, views_count, likes_count and
is_featured. The created_at timestamp is environment-supplied and
omitted from the model. -/
structure NewsDoc where
  title : String
  content : String
  category : String
  source : Option String
  tags : List String
  image_url : Option String
  created_by : String
  confidence_score : ℚ
  is_active : Bool
  views_count : Nat
  likes_count : Nat
  is_featured : Bool
deriving Repr, DecidableEq

/-- Embedding of the create_news handler (news.py lines 40-79) given
the outcome of the classification call on news.content. The inner
try/except catches every exception from predict and substitutes
"Uncategorized"/0.0; the dict update then overwrites any caller-supplied
category. Database insert and read-back are modelled as succeeding, so
the handler returns the inserted document. -/
def create_news (news : NewsCreate) (uid : String)
    (classification : Except PyExc PredictResult) : Except HTTPError NewsDoc :=
  let cc : String × ℚ :=
    match classification with
    | Except.ok r => (r.category, r.confidence)
    | Except.error _ => ("Uncategorized", 0)
  Except.ok
    { title := news.title
      content := news.content
      category := cc.1
      source := news.source
      tags := news.tags
      image_url := news.image_url
      created_by := uid
      confidence_score := cc.2
      is_active := true
      views_count := 0
      likes_count := 0
      is_featured := false }

/-- Stored news document as read and rewritten by update_news; the
fields the modelled update payload can touch, plus confidence_score. -/
structure StoredNews where
  title : String
  content : String
  category : String
  confidence_score : ℚ
deriving Repr, DecidableEq

/-- Embedding of the update_news handler (news.py lines 81-118) for an
update payload carrying an optional new content and an optional new
title (model_dump with exclude_unset: an absent field is None here).
Returns the HTTP response together with the final stored state of the
document, so that "no mutation on error" is expressible.
Control flow copied from the source: a missing document raises
HTTPException(404) inside the try block, which the trailing
except-Exception clause converts to 500; when content is present the
classification call may raise, and the except clauses map ValueError to
400, RuntimeError to 503 and every other exception to 500; the $set
update is only reached when no exception was raised. -/
def update_news (stored : Option StoredNews) (content? title? : Option String)
    (st : ModelState) (transport : TransportOutcome) :
    Except HTTPError StoredNews × Option StoredNews :=
  match stored with
  | none => (Except.error ⟨500, "Failed to update news article"⟩, none)
  | some doc =>
    match content? with
    | some c =>
        match (predict st transport c).1 with
        | Except.error (PyExc.valueError m) => (Except.error ⟨400, m⟩, some doc)
        | Except.error (PyExc.runtimeError _) =>
            (Except.error ⟨503, "Model service is not available"⟩, some doc)
        | Except.error _ =>
            (Except.error ⟨500, "Failed to update news article"⟩, some doc)
        | Except.ok r =>
            let doc2 : StoredNews :=
              { title := title?.getD doc.title
                content := c
                category := r.category
                confidence_score := r.confidence }
            (Except.ok doc2, some doc2)
    | none =>
        let doc2 : StoredNews := { doc with title := title?.getD doc.title }
        (Except.ok doc2, some doc2)

/-- Padding strategy passed to the HuggingFace tokenizer call:
longest models padding=True (pad to the longest sequence in the batch),
maxLength models padding=max_length (pad to the max_length argument). -/
inductive PaddingStrategy where
  | longest
  | maxLength
deriving Repr, DecidableEq

/-- Model of the tokenizer call on a single-text batch, following the
documented HuggingFace semantics for truncation and padding: the token
sequence is truncated to maxLen; with strategy longest a batch of one is
padded to its own length (a no-op), with strategy maxLength it is padded
with the pad token (id 0) up to maxLen. -/
def tokenize (strategy : PaddingStrategy) (maxLen : Nat) (toks : List Nat) : List Nat :=
  let t := toks.take maxLen
  match strategy with
  | PaddingStrategy.longest => t
  | PaddingStrategy.maxLength => t ++ List.replicate (maxLen - t.length) 0

/-- Tokenization as performed in ModelService.predict (model_service.py
lines 93-99): truncation=True, padding=True, max_length=512. -/
def modelServiceTokenize (toks : List Nat) : List Nat :=
  tokenize PaddingStrategy.longest 512 toks

/-- Tokenization as performed in BertNewsClassifier.classify_text
(bert_classifier.py lines 26-32): truncation=True, max_length=512,
padding=max_length. -/
def bertClassifierTokenize (toks : List Nat) : List Nat :=
  tokenize PaddingStrategy.maxLength 512 toks

/-- The index chosen by argmaxIdx is within bounds for a nonempty vector. -/
theorem argmaxIdx_lt_length : ∀ (l : List ℚ), l ≠ [] → argmaxIdx l < l.length := by
  intro l
  induction l with
  | nil => intro h; exact absurd rfl h
  | cons x xs ih =>
    cases xs with
    | nil => intro _; simp [argmaxIdx]
    | cons y ys =>
      intro _
      have hlt := ih (by simp)
      simp only [argmaxIdx]
      split
      · simpa using Nat.succ_lt_succ hlt
      · simp

/-- Every entry of the vector is bounded by the entry at argmaxIdx. -/
theorem argmaxIdx_is_max : ∀ (l : List ℚ) (j : Nat), j < l.length →
    l.getD j 0 ≤ l.getD (argmaxIdx l) 0 := by
  intro l
  induction l with
  | nil => intro j hj; simp at hj
  | cons x xs ih =>
    cases xs with
    | nil =>
      intro j hj
      have hj0 : j = 0 := Nat.lt_one_iff.mp (by simpa using hj)
      subst hj0
      simp [argmaxIdx]
    | cons y ys =>
      intro j hj
      simp only [argmaxIdx]
      by_cases hc : (y :: ys).getD (argmaxIdx (y :: ys)) 0 > x
      · rw [if_pos hc]
        cases j with
        | zero =>
          simpa [List.getD_cons_zero, List.getD_cons_succ] using le_of_lt hc
        | succ j =>
          rw [List.getD_cons_succ, List.getD_cons_succ]
          exact ih j (by simpa using Nat.lt_of_succ_lt_succ hj)
      · rw [if_neg hc]
        push_neg at hc
        cases j with
        | zero => simp
        | succ j =>
          rw [List.getD_cons_succ, List.getD_cons_zero]
          exact le_trans (ih j (by simpa using Nat.lt_of_succ_lt_succ hj)) hc

/-- Entries strictly before argmaxIdx are strictly below the maximum:
argmaxIdx is the first index attaining the maximum. -/
theorem argmaxIdx_first : ∀ (l : List ℚ) (j : Nat), j < argmaxIdx l →
    l.getD j 0 < l.getD (argmaxIdx l) 0 := by
  intro l
  induction l with
  | nil => intro j hj; simp [argmaxIdx] at hj
  | cons x xs ih =>
    cases xs with
    | nil => intro j hj; simp [argmaxIdx] at hj
    | cons y ys =>
      intro j hj
      simp only [argmaxIdx] at hj ⊢
      by_cases hc : (y :: ys).getD (argmaxIdx (y :: ys)) 0 > x
      · rw [if_pos hc] at hj ⊢
        cases j with
        | zero => simpa [List.getD_cons_zero, List.getD_cons_succ] using hc
        | succ j =>
          rw [List.getD_cons_succ, List.getD_cons_succ]
          exact ih j (Nat.lt_of_succ_lt_succ hj)
      · rw [if_neg hc] at hj
        exact absurd hj (Nat.not_lt_zero j)

/-- The pair of entries at a common in-bounds index is a member of the zip. -/
theorem getD_pair_mem_zip (l1 : List String) (l2 : List ℚ) (k : Nat)
    (h1 : k < l1.length) (h2 : k < l2.length) :
    (l1.getD k "", l2.getD k 0) ∈ l1.zip l2 := by
  induction l1 generalizing l2 k with
  | nil => simp at h1
  | cons a l1 ih =>
    cases l2 with
    | nil => simp at h2
    | cons b l2 =>
      cases k with
      | zero => simp
      | succ k =>
        rw [List.getD_cons_succ, List.getD_cons_succ]
        exact List.mem_cons_of_mem _
          (ih l2 k (Nat.lt_of_succ_lt_succ h1) (Nat.lt_of_succ_lt_succ h2))

/-- Looking up the key at index k of the zipped association list returns
the value at index k, provided the keys are distinct. -/
theorem lookup_zip_getD : ∀ (l1 : List String) (l2 : List ℚ) (k : Nat),
    l1.Nodup → k < l1.length → k < l2.length →
    (l1.zip l2).lookup (l1.getD k "") = some (l2.getD k 0) := by
  intro l1
  induction l1 with
  | nil => intro l2 k _ h1 _; simp at h1
  | cons a l1 ih =>
    intro l2 k hnd h1 h2
    cases l2 with
    | nil => simp at h2
    | cons b l2 =>
      cases k with
      | zero => simp [List.lookup]
      | succ k =>
        rw [List.getD_cons_succ, List.getD_cons_succ]
        have hk1 : k < l1.length := Nat.lt_of_succ_lt_succ h1
        have hne : (l1.getD k "" == a) = false := by
          apply beq_false_of_ne
          intro he
          have hmem : l1.getD k "" ∈ l1 := by
            rw [List.getD_eq_getElem _ _ hk1]
            exact List.getElem_mem hk1
          rw [he] at hmem
          exact (List.nodup_cons.mp hnd).1 hmem
        rw [List.zip_cons_cons]
        simp only [List.lookup, hne]
        exact ih l2 k (List.nodup_cons.mp hnd).2 hk1 (Nat.lt_of_succ_lt_succ h2)

/-- C1: for every valid non-empty input, when the transport produces a
well-formed candidate list (one score per label-encoder class, nonempty),
predict succeeds, the returned (category, confidence) pair is one of the
label/score candidates, and the confidence is the maximum candidate
score: equality holds exactly, hence within tolerance 1e-6. -/
theorem C1_predict_returns_max_candidate (st : ModelState) (probs : List ℚ)
    (text : String) (htext : text ≠ "") (hload : st.loaded = true)
    (hne : probs ≠ []) (hlen : st.classes.length = probs.length) :
    ∃ r : PredictResult,
      (predict st (TransportOutcome.ok probs) text).1 = Except.ok r ∧
      (r.category, r.confidence) ∈ st.classes.zip probs ∧
      ∀ p ∈ probs, p ≤ r.confidence := by
  have hk : argmaxIdx probs < probs.length := argmaxIdx_lt_length probs hne
  refine ⟨⟨st.classes.getD (argmaxIdx probs) "", probs.getD (argmaxIdx probs) 0,
    st.classes.zip probs⟩, ?_, ?_, ?_⟩
  · simp [predict, htext, hload]
  · exact getD_pair_mem_zip st.classes probs (argmaxIdx probs) (by omega) hk
  · intro p hp
    obtain ⟨j, hj, hpj⟩ := List.mem_iff_getElem.mp hp
    have hmax := argmaxIdx_is_max probs j hj
    rw [List.getD_eq_getElem _ _ hj, hpj] at hmax
    exact hmax

/-- Witness for C1 at the concrete input of the spec scenario:
candidates Academics 0.91 and Events 0.05 for a non-empty text. -/
theorem C1_witness :
    "Exams begin next week" ≠ "" ∧
    (∃ r : PredictResult,
      (predict ⟨["Academics", "Events"], true⟩
          (TransportOutcome.ok [91/100, 5/100]) "Exams begin next week").1 =
        Except.ok r ∧
      (r.category, r.confidence) ∈
        (ModelState.mk ["Academics", "Events"] true).classes.zip [91/100, 5/100] ∧
      ∀ p ∈ ([91/100, 5/100] : List ℚ), p ≤ r.confidence) :=
  ⟨by decide,
   C1_predict_returns_max_candidate ⟨["Academics", "Events"], true⟩ [91/100, 5/100]
     "Exams begin next week" (by decide) rfl (by decide) (by decide)⟩

/-- C2: whatever exception the classification call raises, the create
workflow swallows it, persists the article with category "Uncategorized"
and confidence_score 0.0, and returns success. -/
theorem C2_create_fallback (news : NewsCreate) (uid : String) (e : PyExc) :
    ∃ d : NewsDoc, create_news news uid (Except.error e) = Except.ok d ∧
      d.category = "Uncategorized" ∧ d.confidence_score = 0 ∧
      d.is_active = true :=
  ⟨_, rfl, rfl, rfl, rfl⟩

/-- C4 amended: the empty input is rejected with ValueError before any
model call; this is the only input predict itself rejects. -/
theorem C4_empty_input_rejected (st : ModelState) (transport : TransportOutcome) :
    predict st transport "" =
      (Except.error (PyExc.valueError "Input text cannot be empty"), 0) := rfl

/-- C4 counterexample: the whitespace-only input " " is truthy in the
source guard, so predict does not fail with InvalidInput and the model
pipeline is invoked once, refuting the claim for whitespace-only input. -/
theorem C4_counterexample :
    (predict ⟨["Academics"], true⟩ (TransportOutcome.ok [1]) " ").2 = 1 ∧
    (predict ⟨["Academics"], true⟩ (TransportOutcome.ok [1]) " ").1 =
      Except.ok ⟨"Academics", 1, [("Academics", 1)]⟩ :=
  ⟨rfl, rfl⟩

/-- C7: predict selects the candidate at the first index attaining the
maximum score: every score is bounded by the selected one and every
earlier score is strictly below it, so on ties the earliest candidate in
response order wins. -/
theorem C7_predict_tie_break_first (st : ModelState) (probs : List ℚ)
    (text : String) (htext : text ≠ "") (hload : st.loaded = true)
    (hne : probs ≠ []) (_hlen : st.classes.length = probs.length) :
    ∃ (r : PredictResult) (k : Nat),
      (predict st (TransportOutcome.ok probs) text).1 = Except.ok r ∧
      k < probs.length ∧
      r.category = st.classes.getD k "" ∧
      r.confidence = probs.getD k 0 ∧
      (∀ j, j < probs.length → probs.getD j 0 ≤ probs.getD k 0) ∧
      (∀ j, j < k → probs.getD j 0 < probs.getD k 0) := by
  have hk : argmaxIdx probs < probs.length := argmaxIdx_lt_length probs hne
  refine ⟨⟨st.classes.getD (argmaxIdx probs) "", probs.getD (argmaxIdx probs) 0,
    st.classes.zip probs⟩, argmaxIdx probs, ?_, hk, rfl, rfl, ?_, ?_⟩
  · simp [predict, htext, hload]
  · intro j hj; exact argmaxIdx_is_max probs j hj
  · intro j hj; exact argmaxIdx_first probs j hj

/-- Witness for C7 on a list with a two-way tie for the maximum: scores
0.3, 0.7, 0.7 over three labels; the theorem applies and pins index 1. -/
theorem C7_witness :
    "t" ≠ "" ∧
    (∃ (r : PredictResult) (k : Nat),
      (predict ⟨["Academics", "Events", "Sports"], true⟩
          (TransportOutcome.ok [3/10, 7/10, 7/10]) "t").1 = Except.ok r ∧
      k < ([3/10, 7/10, 7/10] : List ℚ).length ∧
      r.category = (ModelState.mk ["Academics", "Events", "Sports"] true).classes.getD k "" ∧
      r.confidence = ([3/10, 7/10, 7/10] : List ℚ).getD k 0 ∧
      (∀ j, j < ([3/10, 7/10, 7/10] : List ℚ).length →
        ([3/10, 7/10, 7/10] : List ℚ).getD j 0 ≤ ([3/10, 7/10, 7/10] : List ℚ).getD k 0) ∧
      (∀ j, j < k →
        ([3/10, 7/10, 7/10] : List ℚ).getD j 0 < ([3/10, 7/10, 7/10] : List ℚ).getD k 0)) :=
  ⟨by decide,
   C7_predict_tie_break_first ⟨["Academics", "Events", "Sports"], true⟩
     [3/10, 7/10, 7/10] "t" (by decide) rfl (by decide) (by decide)⟩

/-- C9: the persisted creation document takes its category and
confidence_score solely from the classification outcome (with the
Uncategorized/0.0 fallback), any caller-supplied category is ignored,
and the counters and flags are always 0, 0, false and true. -/
theorem C9_create_fields (news : NewsCreate) (uid : String)
    (cls : Except PyExc PredictResult) :
    ∃ d : NewsDoc, create_news news uid cls = Except.ok d ∧
      d.views_count = 0 ∧ d.likes_count = 0 ∧ d.is_featured = false ∧
      d.is_active = true ∧
      d.category = (match cls with
        | Except.ok r => r.category
        | Except.error _ => "Uncategorized") ∧
      d.confidence_score = (match cls with
        | Except.ok r => r.confidence
        | Except.error _ => 0) ∧
      ∀ c : Option String,
        create_news { news with category := c } uid cls = create_news news uid cls := by
  cases cls with
  | ok r => exact ⟨_, rfl, rfl, rfl, rfl, rfl, rfl, rfl, fun _ => rfl⟩
  | error e => exact ⟨_, rfl, rfl, rfl, rfl, rfl, rfl, rfl, fun _ => rfl⟩

/-- C3 counterexample: a connection error raised by the transport during
a content update is caught by the trailing except-Exception clause and
surfaces as HTTP 500 "Failed to update news article", not as the 503
service-unavailable error the claim states; the stored document is left
unchanged. -/
theorem C3_counterexample :
    update_news (some ⟨"T", "old", "Events", 1/2⟩) (some "new content") none
        ⟨["Academics"], true⟩
        (TransportOutcome.exc (PyExc.connectionError "connection refused")) =
      (Except.error ⟨500, "Failed to update news article"⟩,
       some ⟨"T", "old", "Events", 1/2⟩) ∧
    (500 : Nat) ≠ 503 :=
  ⟨rfl, by decide⟩

/-- C3 amended: when the classification call during a content update
raises an exception, the update workflow surfaces an error and commits
no document mutation; the error is 503 service-unavailable exactly when
the exception is a RuntimeError (model components missing), 400 for a
ValueError, and a generic 500 for every other transport fault. -/
theorem C3_update_error_no_mutation (doc : StoredNews) (c : String)
    (title? : Option String) (st : ModelState) (e : PyExc)
    (hc : c ≠ "") (hload : st.loaded = true) :
    update_news (some doc) (some c) title? st (TransportOutcome.exc e) =
      (Except.error (match e with
        | PyExc.valueError m => ⟨400, m⟩
        | PyExc.runtimeError _ => ⟨503, "Model service is not available"⟩
        | _ => ⟨500, "Failed to update news article"⟩),
       some doc) := by
  cases e <;> simp [update_news, predict, hc, hload]

/-- Witness for C3 at a concrete content update whose classification
raises a RuntimeError: the 503 branch, with the document unchanged. -/
theorem C3_witness :
    "new content" ≠ "" ∧
    update_news (some ⟨"T", "old", "Events", 1/2⟩) (some "new content") none
        ⟨["Academics"], true⟩
        (TransportOutcome.exc (PyExc.runtimeError "cuda gone")) =
      (Except.error (match (PyExc.runtimeError "cuda gone") with
        | PyExc.valueError m => (⟨400, m⟩ : HTTPError)
        | PyExc.runtimeError _ => ⟨503, "Model service is not available"⟩
        | _ => ⟨500, "Failed to update news article"⟩),
       some ⟨"T", "old", "Events", 1/2⟩) :=
  ⟨by decide,
   C3_update_error_no_mutation ⟨"T", "old", "Events", 1/2⟩ "new content" none
     ⟨["Academics"], true⟩ (PyExc.runtimeError "cuda gone") (by decide) rfl⟩

/-- C5 counterexample: the category is taken verbatim from the label
encoder with no validation against the configured category list, so an
encoder class outside that list is returned as-is: with classes
["Politics"] predict returns category "Politics", which is neither a
configured category nor "Uncategorized". -/
theorem C5_counterexample :
    (predict ⟨["Politics"], true⟩ (TransportOutcome.ok [1]) "text").1 =
      Except.ok ⟨"Politics", 1, [("Politics", 1)]⟩ ∧
    "Politics" ∉ NEWS_CATEGORIES ∧ "Politics" ≠ "Uncategorized" :=
  ⟨rfl, by decide, by decide⟩

/-- C5 amended: the invariant holds only under the assumption that every
label-encoder class belongs to the configured category list; then every
successful predict on a well-formed score vector returns a configured
category (so in particular a configured category or "Uncategorized"). -/
theorem C5_category_in_set (st : ModelState) (probs : List ℚ) (text : String)
    (r : PredictResult)
    (hsub : ∀ c ∈ st.classes, c ∈ NEWS_CATEGORIES)
    (hlen : st.classes.length = probs.length)
    (hne : probs ≠ [])
    (hok : (predict st (TransportOutcome.ok probs) text).1 = Except.ok r) :
    r.category ∈ NEWS_CATEGORIES ∨ r.category = "Uncategorized" := by
  left
  have hk : argmaxIdx probs < probs.length := argmaxIdx_lt_length probs hne
  have hk1 : argmaxIdx probs < st.classes.length := by omega
  by_cases htext : text = ""
  · rw [htext] at hok
    simp [predict] at hok
  · by_cases hload : st.loaded = true
    · simp [predict, htext, hload] at hok
      subst hok
      simp only [List.getElem?_eq_getElem hk1, Option.getD_some]
      exact hsub _ (List.getElem_mem hk1)
    · have hfalse : st.loaded = false := by
        revert hload; cases st.loaded <;> simp
      simp [predict, htext, hfalse] at hok

/-- Witness for C5 with an encoder whose classes are all configured
categories: the returned category "Events" is in the configured list. -/
theorem C5_witness :
    (∀ c ∈ (ModelState.mk ["Academics", "Events"] true).classes, c ∈ NEWS_CATEGORIES) ∧
    ((PredictResult.mk "Events" (mkRat 3 4)
        [("Academics", mkRat 1 4), ("Events", mkRat 3 4)]).category
        ∈ NEWS_CATEGORIES ∨
      (PredictResult.mk "Events" (mkRat 3 4)
        [("Academics", mkRat 1 4), ("Events", mkRat 3 4)]).category
        = "Uncategorized") :=
  ⟨by decide,
   C5_category_in_set ⟨["Academics", "Events"], true⟩ [mkRat 1 4, mkRat 3 4] "t"
     ⟨"Events", mkRat 3 4, [("Academics", mkRat 1 4), ("Events", mkRat 3 4)]⟩
     (by decide) (by decide) (by decide) rfl⟩

/-- C6 counterexample: the ModelService tokenizer call uses padding=True,
which pads to the longest sequence of the (single-text) batch, so a
3-token input stays at length 3 and is not padded to 512. -/
theorem C6_counterexample :
    modelServiceTokenize [101, 7592, 102] = [101, 7592, 102] ∧
    (modelServiceTokenize [101, 7592, 102]).length ≠ 512 :=
  ⟨rfl, by decide⟩

/-- C6 amended: both local-model variants truncate to at most 512
tokens; the BertNewsClassifier variant (padding=max_length) always
produces exactly 512 tokens, while the ModelService variant
(padding=True) produces min(length, 512) tokens: shorter inputs are not
padded to 512 there. -/
theorem C6_tokenize_lengths (toks : List Nat) :
    (bertClassifierTokenize toks).length = 512 ∧
    (modelServiceTokenize toks).length = min toks.length 512 := by
  constructor
  · simp [bertClassifierTokenize, tokenize]
  · simp [modelServiceTokenize, tokenize, Nat.min_comm]

/-- C8 counterexample: a connectivity fault raised by the transport is
re-raised by predict unchanged (the transport-specific exception leaks),
and the classify handler maps it to HTTP 500 "Classification failed"
rather than a 503 ServiceUnavailable. -/
theorem C8_counterexample :
    (predict ⟨["Academics"], true⟩
        (TransportOutcome.exc (PyExc.connectionError "timed out")) "t").1 =
      Except.error (PyExc.connectionError "timed out") ∧
    classify_text ⟨["Academics"], true⟩
        (TransportOutcome.exc (PyExc.connectionError "timed out")) "t" =
      Except.error ⟨500, "Classification failed"⟩ ∧
    (500 : Nat) ≠ 503 :=
  ⟨rfl, rfl, by decide⟩

/-- C8 amended: predict performs no exception conversion: apart from the
ValueError on empty input and the RuntimeError on missing components, it
re-raises whatever exception the transport raised, unchanged; the HTTP
layer then maps any such leaked exception other than RuntimeError to a
generic 500, not to ServiceUnavailable. -/
theorem C8_transport_exceptions_leak (st : ModelState) (e : PyExc)
    (text : String) (htext : text ≠ "") (hload : st.loaded = true) :
    (predict st (TransportOutcome.exc e) text).1 = Except.error e := by
  simp [predict, htext, hload]

/-- Witness for C8 re-raising a concrete connectivity exception. -/
theorem C8_witness :
    "t" ≠ "" ∧
    (predict ⟨["Academics"], true⟩
        (TransportOutcome.exc (PyExc.connectionError "refused")) "t").1 =
      Except.error (PyExc.connectionError "refused") :=
  ⟨by decide,
   C8_transport_exceptions_leak ⟨["Academics"], true⟩
     (PyExc.connectionError "refused") "t" (by decide) rfl⟩

/-- C10: on a successful predict over a well-formed score vector and a
duplicate-free class list, all_probabilities has exactly one entry per
label-encoder class (its keys are the classes in order), the entry for
the returned category is the returned confidence, and every probability
in the mapping is bounded by that confidence. -/
theorem C10_all_probabilities (st : ModelState) (probs : List ℚ)
    (text : String) (htext : text ≠ "") (hload : st.loaded = true)
    (hne : probs ≠ []) (hlen : st.classes.length = probs.length)
    (hnd : st.classes.Nodup) :
    ∃ r : PredictResult,
      (predict st (TransportOutcome.ok probs) text).1 = Except.ok r ∧
      r.all_probabilities.length = st.classes.length ∧
      r.all_probabilities.map Prod.fst = st.classes ∧
      r.all_probabilities.lookup r.category = some r.confidence ∧
      ∀ pr ∈ r.all_probabilities, pr.2 ≤ r.confidence := by
  have hk : argmaxIdx probs < probs.length := argmaxIdx_lt_length probs hne
  refine ⟨⟨st.classes.getD (argmaxIdx probs) "", probs.getD (argmaxIdx probs) 0,
    st.classes.zip probs⟩, ?_, ?_, ?_, ?_, ?_⟩
  · simp [predict, htext, hload]
  · simp [List.length_zip]
    omega
  · exact List.map_fst_zip _ _ (le_of_eq hlen)
  · exact lookup_zip_getD st.classes probs (argmaxIdx probs) hnd (by omega) hk
  · intro pr hpr
    obtain ⟨a, b⟩ := pr
    have h2 : b ∈ probs := (List.of_mem_zip hpr).2
    obtain ⟨j, hj, hpj⟩ := List.mem_iff_getElem.mp h2
    have hmax := argmaxIdx_is_max probs j hj
    rw [List.getD_eq_getElem _ _ hj, hpj] at hmax
    exact hmax

/-- Witness for C10 at two configured labels with scores 0.25 and 0.75. -/
theorem C10_witness :
    "t" ≠ "" ∧
    (∃ r : PredictResult,
      (predict ⟨["Academics", "Events"], true⟩
          (TransportOutcome.ok [1/4, 3/4]) "t").1 = Except.ok r ∧
      r.all_probabilities.length =
        (ModelState.mk ["Academics", "Events"] true).classes.length ∧
      r.all_probabilities.map Prod.fst =
        (ModelState.mk ["Academics", "Events"] true).classes ∧
      r.all_probabilities.lookup r.category = some r.confidence ∧
      ∀ pr ∈ r.all_probabilities, pr.2 ≤ r.confidence) :=
  ⟨by decide,
   C10_all_probabilities ⟨["Academics", "Events"], true⟩ [1/4, 3/4] "t"
     (by decide) rfl (by decide) (by decide) (by decide)⟩

end FYP
